import Mathlib

/-!
Verification of the conversational pipeline of `src/main.py` (ai_content_bot).

The development shallowly embeds the Python source: money amounts (Python
floats manipulated only by `+`, `-`, `*`) become `ℚ`; timestamps become `Int`;
database rows become structures; the network calls of the AI manager are
parameterised by their outcome so that every exception path of the source is
an explicit constructor.  Components that the design document describes but
that do not exist anywhere in `src/main.py` (token accountant, moderation
gate, retrieval index) are modelled from the spec and marked as such in their
doc comments.
-/

namespace GaneshBot

/-! ## Configuration constants (defaults from src/main.py lines 106-124) -/

def VISIT_PAY_RATE : ℚ := 1/100
def CHAT_PAY_RATE : ℚ := 1/20
def REFERRAL_BONUS : ℚ := 10
def GPT4_COST : ℚ := 2
def CLAUDE_COST : ℚ := 3/2
def GEMINI_COST : ℚ := 1
def FREE_COST : ℚ := 1/10
def ADMIN_SHARE : ℚ := 7/10
def USER_SHARE : ℚ := 3/10

/-! ## Data model (src/main.py lines 167-286) -/

/-- Row of the `users` table (src/main.py lines 167-188), restricted to the
columns the verified operations touch. -/
structure UserRec where
  id : Int
  wallet : ℚ
  total_earned : ℚ
  visits_count : Int
  chats_count : Int
  referrals_count : Int
  referred_by : Option String
  premium_until : Option Int
  last_visit : Int
  role : String
deriving DecidableEq

/-- Row of the `transactions` table (src/main.py lines 237-248). -/
structure TransactionRec where
  user_id : Int
  amount : ℚ
  transaction_type : String
  status : String
  description : String
deriving DecidableEq

/-- Row of the `api_usage` table (src/main.py lines 250-263). -/
structure APIUsageRec where
  user_id : Int
  api_type : String
  model_name : String
  cost : ℚ
  earnings_generated : ℚ
  request_data : String
  response_data : String
deriving DecidableEq

/-- `User.is_premium` (src/main.py lines 196-198): the user has a
`premium_until` timestamp strictly in the future. -/
def is_premium (now : Int) (u : UserRec) : Bool :=
  match u.premium_until with
  | none => false
  | some t => decide (now < t)

/-- `User.add_earnings` (src/main.py lines 205-218): credit `amount` to the
wallet and to `total_earned`, and create one completed credit transaction. -/
def add_earnings (u : UserRec) (amount : ℚ) (description : String) :
    UserRec × TransactionRec :=
  ({ u with wallet := u.wallet + amount, total_earned := u.total_earned + amount },
   { user_id := u.id, amount := amount, transaction_type := "credit",
     status := "completed", description := description })

/-! ## AIModelManager model catalogue (src/main.py lines 354-403) -/

/-- One entry of `AIModelManager.models` (src/main.py lines 355-391). -/
structure ModelInfo where
  name : String
  cost : ℚ
  provider : String
  model_id : String
deriving DecidableEq

def gpt4Model : ModelInfo :=
  { name := "GPT-4 Turbo", cost := GPT4_COST, provider := "openai",
    model_id := "gpt-4-turbo-preview" }

def gpt35Model : ModelInfo :=
  { name := "GPT-3.5 Turbo", cost := CLAUDE_COST, provider := "openai",
    model_id := "gpt-3.5-turbo" }

def claudeModel : ModelInfo :=
  { name := "Claude 3 Sonnet", cost := CLAUDE_COST, provider := "anthropic",
    model_id := "claude-3-sonnet-20240229" }

def geminiModel : ModelInfo :=
  { name := "Gemini Pro", cost := GEMINI_COST, provider := "google",
    model_id := "gemini-pro" }

def freeModel : ModelInfo :=
  { name := "Ganesh AI Free", cost := FREE_COST, provider := "huggingface",
    model_id := "microsoft/DialoGPT-large" }

/-- `AIModelManager.models` in its insertion order (src/main.py lines 355-391);
Python dicts iterate in insertion order. -/
def modelsList : List (String × ModelInfo) :=
  [("gpt4", gpt4Model), ("gpt3.5", gpt35Model), ("claude", claudeModel),
   ("gemini", geminiModel), ("free", freeModel)]

/-- `self.models.get(model_key, self.models['free'])` (src/main.py line 408):
look the key up among the five configured models, defaulting to the free
model for an unknown key. -/
def modelsGet (key : String) : ModelInfo :=
  if key == "gpt4" then gpt4Model
  else if key == "gpt3.5" then gpt35Model
  else if key == "claude" then claudeModel
  else if key == "gemini" then geminiModel
  else freeModel

/-- One entry of the list built by `get_available_models`
(src/main.py lines 393-403). -/
structure AvailableModel where
  key : String
  name : String
  cost : ℚ
  provider : String
  available : Bool
deriving DecidableEq

/-- `AIModelManager.get_available_models` (src/main.py lines 393-403): walk
the model catalogue; a premium user gets every model marked available,
otherwise only the key `"free"` is marked available. -/
def get_available_models (user : Option UserRec) (now : Int) :
    List AvailableModel :=
  modelsList.map (fun p =>
    let avail : Bool :=
      match user with
      | some u => if is_premium now u then true else p.1 == "free"
      | none => p.1 == "free"
    { key := p.1, name := p.2.name, cost := p.2.cost,
      provider := p.2.provider, available := avail })

/-! ## Provider requests (src/main.py lines 469-550)

Each provider helper wraps its whole body in `try/except`, so no exception
escapes it; the outcome of the network interaction is made an explicit
parameter. -/

/-- Outcome of the `httpx` interaction inside `_openai_request`
(src/main.py lines 490-505): a 200 response with extracted content, a non-200
status code, or an exception (timeout included) caught by the helper's own
`except` clause. -/
inductive ProviderOutcome where
  | ok (content : String)
  | httpError (code : Int)
  | raised (msg : String)
deriving DecidableEq

/-- Outcome of the `httpx` interaction inside `_huggingface_request`
(src/main.py lines 532-550): a 200 response whose JSON body is a non-empty
list (with an optional `generated_text` field on its head), a 200 response of
any other shape, a non-200 status code, or a caught exception. -/
inductive HfOutcome where
  | okGen (gen : Option String)
  | okInvalid
  | httpError (code : Int)
  | raised (msg : String)
deriving DecidableEq

/-- Result dict of a provider helper: keys `success`, `content`, `error`. -/
structure AIResponse where
  success : Bool
  content : String := ""
  error : String := ""
deriving DecidableEq

/-- `AIModelManager._openai_request` (src/main.py lines 469-505).  The
`model` argument of the source only selects the remote model and does not
affect the result shape, so it is not tracked. -/
def openai_request (apiKeyConfigured : Bool) (outcome : ProviderOutcome) :
    AIResponse :=
  if !apiKeyConfigured then
    { success := false, error := "OpenAI API key not configured" }
  else
    match outcome with
    | .ok c => { success := true, content := c }
    | .httpError code =>
        { success := false, error := "OpenAI API error: " ++ toString code }
    | .raised m =>
        { success := false, error := "OpenAI request failed: " ++ m }

/-- `AIModelManager._claude_request` (src/main.py lines 507-510): placeholder
that falls back to `_openai_request`. -/
def claude_request (apiKeyConfigured : Bool) (outcome : ProviderOutcome) :
    AIResponse :=
  openai_request apiKeyConfigured outcome

/-- `AIModelManager._gemini_request` (src/main.py lines 512-515): placeholder
that falls back to `_openai_request`. -/
def gemini_request (apiKeyConfigured : Bool) (outcome : ProviderOutcome) :
    AIResponse :=
  openai_request apiKeyConfigured outcome

/-- The three canned fallback replies used when no HuggingFace token or URL
is configured (src/main.py lines 522-526); `random.choice` is modelled by the
index `choice` taken modulo 3. -/
def hfCanned (choice : Nat) (prompt : String) : String :=
  match choice % 3 with
  | 0 => "Hello! I\x27m Ganesh AI. You asked: \x27" ++ prompt.take 50 ++
      "...\x27 - I\x27m here to help you with any questions!"
  | 1 => "Thanks for using Ganesh AI! Regarding \x27" ++ prompt.take 50 ++
      "...\x27, I\x27d be happy to assist you further."
  | _ => "Great question about \x27" ++ prompt.take 50 ++
      "...\x27! As Ganesh AI, I\x27m designed to provide helpful responses."

/-- The canned reply returned by the `except` clause of
`_huggingface_request` (src/main.py lines 545-550). -/
def hfExceptReply (prompt : String) : String :=
  "I\x27m Ganesh AI! You asked about \x27" ++ prompt.take 50 ++
    "...\x27 - I\x27m here to help! For better responses, consider upgrading to premium models."

/-- `AIModelManager._huggingface_request` (src/main.py lines 517-550). -/
def huggingface_request (hfConfigured : Bool) (choice : Nat)
    (outcome : HfOutcome) (prompt : String) : AIResponse :=
  if !hfConfigured then
    { success := true, content := hfCanned choice prompt }
  else
    match outcome with
    | .okGen g => { success := true, content := g.getD "No response generated" }
    | .okInvalid => { success := false, error := "Invalid response format" }
    | .httpError code =>
        { success := false, error := "HuggingFace API error: " ++ toString code }
    | .raised _ => { success := true, content := hfExceptReply prompt }

/-! ## generate_response (src/main.py lines 405-467) -/

/-- Environment of one `generate_response` call: which backends are
configured, the outcome of each potential provider interaction, and whether
the wallet-deduction bookkeeping block (src/main.py lines 432-450) raises,
in which case the outer `except` of `generate_response` takes over.  A
failed `db.session.commit()` is never reached by a persisted write, so the
persisted user row is unchanged on that path. -/
structure GenEnv where
  apiKeyConfigured : Bool
  hfConfigured : Bool
  hfChoice : Nat
  openaiOutcome : ProviderOutcome
  hfOutcome : HfOutcome
  commitRaises : Bool
deriving DecidableEq

/-- Result dict of `generate_response` (src/main.py lines 405-467): keys
`success`, `content`, `error`, `model`, `cost`, `upgrade_required`,
`fallback`, each defaulting to its absent value. -/
structure GenResult where
  success : Bool
  content : String := ""
  error : String := ""
  model : String := ""
  cost : ℚ := 0
  upgrade_required : Bool := false
  fallback : Bool := false
deriving DecidableEq

/-- The fixed fallback dict returned by the outer `except` clause of
`generate_response` (src/main.py lines 461-467). -/
def fallbackResult : GenResult :=
  { success := false,
    error := "AI service temporarily unavailable. Please try again.",
    fallback := true }

/-- Provider dispatch of `generate_response` (src/main.py lines 420-427):
anthropic and google are placeholders that delegate to the OpenAI helper;
every other provider value goes to the HuggingFace helper. -/
def provider_response (env : GenEnv) (model : ModelInfo) (prompt : String) :
    AIResponse :=
  if model.provider == "openai" then
    openai_request env.apiKeyConfigured env.openaiOutcome
  else if model.provider == "anthropic" then
    claude_request env.apiKeyConfigured env.openaiOutcome
  else if model.provider == "google" then
    gemini_request env.apiKeyConfigured env.openaiOutcome
  else
    huggingface_request env.hfConfigured env.hfChoice env.hfOutcome prompt

/-- `AIModelManager.generate_response` (src/main.py lines 405-467), returning
the result dict together with the updated user row (persisted state) and the
list of `APIUsage` rows written by the call. -/
def generate_response (env : GenEnv) (prompt modelKey : String)
    (user : Option UserRec) (now : Int) :
    GenResult × Option UserRec × List APIUsageRec :=
  let model := modelsGet modelKey
  let premium : Bool :=
    match user with
    | some u => is_premium now u
    | none => false
  -- src/main.py lines 411-417: affordability gate for non-free models
  let insufficient : Bool :=
    modelKey != "free" && !premium &&
      (match user with
       | none => true
       | some u => decide (u.wallet < model.cost))
  if insufficient then
    ({ success := false,
       error := "Insufficient balance. Need ₹" ++ toString model.cost ++
         " for " ++ model.name,
       upgrade_required := true }, user, [])
  else
    let response : AIResponse := provider_response env model prompt
    if response.success then
      match user with
      | some u =>
        if modelKey != "free" && !is_premium now u then
          -- src/main.py lines 429-450: deduct the cost, count the chat and
          -- record the usage row; a raise inside this block reaches the
          -- outer except clause before any persisted write
          if env.commitRaises then (fallbackResult, some u, [])
          else
            let u2 : UserRec :=
              { u with wallet := u.wallet - model.cost,
                       chats_count := u.chats_count + 1 }
            let usage : APIUsageRec :=
              { user_id := u.id, api_type := modelKey,
                model_name := model.name, cost := model.cost,
                earnings_generated := model.cost * ADMIN_SHARE,
                request_data := prompt.take 500,
                response_data := response.content.take 500 }
            ({ success := true, content := response.content,
               model := model.name, cost := model.cost }, some u2, [usage])
        else
          ({ success := true, content := response.content,
             model := model.name, cost := model.cost }, some u, [])
      | none =>
        ({ success := true, content := response.content,
           model := model.name, cost := model.cost }, none, [])
    else
      -- src/main.py line 459: a non-success provider dict is returned as-is
      ({ success := false, error := response.error }, user, [])

/-- The supervisor claimed by the spec would draw successive attempt
outcomes from a stream; `generate_response` contains no retry loop, so only
the outcome at index 0 is ever consumed (src/main.py lines 405-467 perform a
single provider call). -/
def generate_response_attempts (env : GenEnv)
    (outcomes : Nat → ProviderOutcome) (prompt modelKey : String)
    (user : Option UserRec) (now : Int) :
    GenResult × Option UserRec × List APIUsageRec :=
  generate_response { env with openaiOutcome := outcomes 0 }
    prompt modelKey user now

/-! ## The /api/chat endpoint guard (src/main.py lines 2523-2555) -/

/-- Decision taken by the guard section of `api_chat` before the AI call. -/
inductive ChatAdmission where
  | rejected (error : String)
  | processed
deriving DecidableEq

/-- The test `not data.get("message", "").strip()` of src/main.py lines
2532-2535: Python's `strip()` leaves the empty string exactly when every
character of the message is whitespace. -/
def isBlank (s : String) : Bool :=
  s.toList.all (fun c => c.isWhitespace)

/-- Admission logic of `api_chat` (src/main.py lines 2523-2555): reject a
missing JSON body, a blank message or an unknown user; otherwise hand the
request to `generate_response`.  The endpoint consults neither the prior
request history nor the clock, so `priorRequests` (timestamps of earlier
admitted requests of the same session) and `now` are ignored. -/
def api_chat_guard (priorRequests : List Int) (now : Int)
    (data : Option String) (user : Option UserRec) : ChatAdmission :=
  match data with
  | none => .rejected "No data provided"
  | some message =>
    if isBlank message then .rejected "Message is required"
    else
      match user with
      | none => .rejected "User not found"
      | some _ => .processed

/-! ## Message assembly of _openai_request (src/main.py lines 480-488) -/

/-- One entry of the `messages` array sent to the chat completion API. -/
structure ChatMessage where
  role : String
  content : String
deriving DecidableEq

/-- The fixed system preamble of `_openai_request` (src/main.py line 483). -/
def systemPreamble : String :=
  "You are Ganesh AI, a helpful and intelligent assistant created to provide the best possible responses."

/-- The `messages` list built by `_openai_request` (src/main.py lines
482-485): exactly the fixed system preamble followed by the new user
message.  No history is loaded, no retrieval augmentation is attempted and
no token budget is consulted anywhere in `src/main.py`. -/
def openai_messages (prompt : String) : List ChatMessage :=
  [{ role := "system", content := systemPreamble },
   { role := "user", content := prompt }]

/-- Modelled from the spec (§4.1): the heuristic token estimate
`max(1, len(text) / 4)`.  No token estimator of any kind exists in
`src/main.py`; this definition follows the spec's words and is used to state
the token-budget claims. -/
def estimateHeuristic (text : String) : Nat :=
  max 1 (text.length / 4)

/-- Modelled from the spec (§4.1): the Token Accountant prefers an exact
subword tokenizer when one is loaded and falls back to the heuristic
transparently.  `src/main.py` contains no such component. -/
def estimate (exact : Option (String → Nat)) (text : String) : Nat :=
  match exact with
  | some f => f text
  | none => estimateHeuristic text

/-- Total heuristic token cost of an assembled message list. -/
def messagesCost (msgs : List ChatMessage) : Nat :=
  (msgs.map (fun m => estimateHeuristic m.content)).sum

/-! ## Moderation gate, modelled from the spec (§4.4)

`src/main.py` contains no moderation gate at all; the definitions below
follow the spec's words (delegate to an external classifier, fail open on
classifier error or timeout, record the degraded-mode decision). -/

/-- Outcome of the external classifier call. -/
inductive ClassifierOutcome where
  | ok (allowed : Bool)
  | raised (msg : String)
  | timedOut
deriving DecidableEq

/-- An audit-sink event (spec §6: `record(event_kind, payload)`). -/
structure AuditEvent where
  kind : String
  payload : String
deriving DecidableEq

/-- Modelled from the spec (§4.4): `allowed(text)` delegates to the
classifier; if the classifier call raises or times out, the gate fails open
(returns `true`) and records a degraded-mode audit event. -/
def moderation_allowed (outcome : ClassifierOutcome) (text : String) :
    Bool × List AuditEvent :=
  match outcome with
  | .ok b => (b, [])
  | .raised m =>
      (true, [{ kind := "moderation_degraded",
                payload := "classifier error: " ++ m }])
  | .timedOut =>
      (true, [{ kind := "moderation_degraded",
                payload := "classifier timeout" }])

/-! ## Retrieval index, modelled from the spec (§4.3)

`src/main.py` contains no retrieval index, no embeddings and no similarity
computation; the definitions below follow the spec's words: brute-force
cosine similarity over the most recent `M` records with a zero-norm guard,
sorted descending with ties broken most-recent-first, top-K snippets
returned as plain text. -/

/-- An embedding record (spec §3). -/
structure EmbeddingRecord where
  session_id : String
  source_text : String
  vector : List ℝ
  model_version : String
  created_at : Int

/-- Dot product of two vectors (missing coordinates contribute 0). -/
def dotR (a b : List ℝ) : ℝ :=
  (List.zipWith (fun x y => x * y) a b).sum

/-- Euclidean norm of a vector. -/
noncomputable def normR (a : List ℝ) : ℝ :=
  Real.sqrt (dotR a a)

open Classical in
/-- Modelled from the spec (§4.3): cosine similarity
`dot(a,b) / (||a|| * ||b||)` with the zero-norm guard scoring 0. -/
noncomputable def cosineScore (a b : List ℝ) : ℝ :=
  if normR a = 0 ∨ normR b = 0 then 0
  else dotR a b / (normR a * normR b)

/-- Bound on the number of records scanned per query (spec §4.3, default
200). -/
def windowM : Nat := 200

/-- Ranking order of the retrieval index (spec §4.3): strictly higher score
first; among equal scores, the more recent record first. -/
def retrievalOrder (q : List ℝ) (r s : EmbeddingRecord) : Prop :=
  cosineScore q r.vector > cosineScore q s.vector ∨
    (cosineScore q r.vector = cosineScore q s.vector ∧
      s.created_at ≤ r.created_at)

/-- Classical decidability of the ranking order (the scores are reals). -/
noncomputable def retrievalOrderDec (q : List ℝ) :
    DecidableRel (retrievalOrder q) :=
  fun _ _ => Classical.dec _

/-- Modelled from the spec (§4.3): scan the most recent `windowM` records
(`records` is newest-first), keep those whose `model_version` matches the
query vector's version, and sort them by `retrievalOrder`. -/
noncomputable def rankedRecords (records : List EmbeddingRecord)
    (q : List ℝ) (ver : String) : List EmbeddingRecord :=
  @List.insertionSort EmbeddingRecord (retrievalOrder q) (retrievalOrderDec q)
    ((records.take windowM).filter (fun r => r.model_version == ver))

/-- Modelled from the spec (§4.3): `query` returns the top-K snippets as
plain text, discarding scores. -/
noncomputable def queryIndex (records : List EmbeddingRecord) (q : List ℝ)
    (ver : String) (k : Nat) : List String :=
  ((rankedRecords records q ver).take k).map (fun r => r.source_text)

/-! ## The user-mutating operations of the program (for the total_earned
invariant)

Each constructor is one call site in `src/main.py` that mutates a `users`
row. -/

/-- The user-row mutations performed by the program:
`aiDeduct` is the success branch of `generate_response` (lines 432-433);
`visitTrack` is the logged-in branch of `track_visit` (lines 580-582);
`visitAdminShare` is the admin credit of `track_visit` (lines 587-588);
`chatEarn` is the per-chat credit of `api_chat` / the Telegram handler
(lines 2559-2561 and 2342-2344); `chatAdminShare` is the matching admin
credit (lines 2566-2567 and 2349-2350); `referralBonusCredit` and
`welcomeFromReferral` are the two credits of `process_referral` (lines
602-619); `adRevenue` is `generate_ad_revenue` (lines 632-636) with the
`random.uniform(50, 200)` draw as a parameter; `telegramWelcome` is the
welcome bonus of `tg_start` (line 2161). -/
inductive UserOp where
  | aiDeduct (modelKey : String)
  | visitTrack (now : Int) (page : String)
  | visitAdminShare (page : String)
  | chatEarn (modelKey : String)
  | chatAdminShare (modelKey : String)
  | referralBonusCredit (newUserId : Int)
  | welcomeFromReferral (code : String)
  | adRevenue (amount : ℚ)
  | telegramWelcome
deriving DecidableEq

/-- Effect of each operation on the user row it mutates, translated from the
call sites listed on `UserOp`. -/
def applyUserOp : UserOp → UserRec → UserRec
  | .aiDeduct key, u =>
      { u with wallet := u.wallet - (modelsGet key).cost,
               chats_count := u.chats_count + 1 }
  | .visitTrack now page, u =>
      (add_earnings
        { u with visits_count := u.visits_count + 1, last_visit := now }
        VISIT_PAY_RATE ("Visit earnings for " ++ page)).1
  | .visitAdminShare page, u =>
      (add_earnings u (VISIT_PAY_RATE * ADMIN_SHARE)
        ("Admin share from visit to " ++ page)).1
  | .chatEarn key, u =>
      (add_earnings { u with chats_count := u.chats_count + 1 }
        (CHAT_PAY_RATE * USER_SHARE) ("Chat earnings - " ++ key)).1
  | .chatAdminShare key, u =>
      (add_earnings u (CHAT_PAY_RATE * ADMIN_SHARE)
        ("Admin share from chat - " ++ key)).1
  | .referralBonusCredit nid, u =>
      { (add_earnings u REFERRAL_BONUS
          ("Referral bonus for user " ++ toString nid)).1 with
        referrals_count := u.referrals_count + 1 }
  | .welcomeFromReferral code, u =>
      (add_earnings { u with referred_by := some code }
        (REFERRAL_BONUS * (1/10)) "Welcome bonus from referral").1
  | .adRevenue a, u => (add_earnings u a "Daily ad revenue").1
  | .telegramWelcome, u =>
      (add_earnings u 5 "Welcome bonus for joining via Telegram").1

/-- Side condition of `generate_ad_revenue` (src/main.py line 632): the
amount is drawn from `random.uniform(50, 200)`. -/
def opValid : UserOp → Prop
  | .adRevenue a => 50 ≤ a ∧ a ≤ 200
  | _ => True

/-! ## Concrete sample data used by counterexamples and witnesses -/

/-- A premium user: `premium_until` strictly after the sample clock 0. -/
def premiumUserSample : UserRec :=
  { id := 1, wallet := 100, total_earned := 0, visits_count := 0,
    chats_count := 0, referrals_count := 0, referred_by := none,
    premium_until := some 100, last_visit := 0, role := "user" }

/-- A plain non-premium user. -/
def plainUserSample : UserRec :=
  { id := 2, wallet := 100, total_earned := 0, visits_count := 0,
    chats_count := 0, referrals_count := 0, referred_by := none,
    premium_until := none, last_visit := 0, role := "user" }

/-- Environment whose OpenAI interaction raises a timeout exception. -/
def raisedEnvSample : GenEnv :=
  { apiKeyConfigured := true, hfConfigured := true, hfChoice := 0,
    openaiOutcome := .raised "ConnectTimeout", hfOutcome := .okInvalid,
    commitRaises := false }

/-- Attempt stream that fails twice (the default `max_retries` of the spec)
and then succeeds. -/
def twoFailStream : Nat → ProviderOutcome
  | 0 => .raised "timeout"
  | 1 => .raised "timeout"
  | _ => .ok "recovered"

/-! ## Helper lemmas shared by several claims -/

/-- The model catalogue lookup always yields one of the five configured
models. -/
lemma modelsGet_mem (key : String) :
    modelsGet key = gpt4Model ∨ modelsGet key = gpt35Model ∨
    modelsGet key = claudeModel ∨ modelsGet key = geminiModel ∨
    modelsGet key = freeModel := by
  unfold modelsGet
  split_ifs <;> simp

/-- Every result of `_openai_request` is a success or carries one of its
three fixed error shapes. -/
lemma openai_request_shape (ak : Bool) (o : ProviderOutcome) :
    (openai_request ak o).success = true ∨
    (openai_request ak o).error = "OpenAI API key not configured" ∨
    (∃ c : Int, (openai_request ak o).error = "OpenAI API error: " ++ toString c) ∨
    (∃ m : String, (openai_request ak o).error = "OpenAI request failed: " ++ m) := by
  cases ak with
  | false => exact Or.inr (Or.inl rfl)
  | true =>
    cases o with
    | ok c => exact Or.inl rfl
    | httpError code => exact Or.inr (Or.inr (Or.inl ⟨code, rfl⟩))
    | raised m => exact Or.inr (Or.inr (Or.inr ⟨m, rfl⟩))

/-- Every result of `_huggingface_request` is a success or carries one of
its two fixed error shapes. -/
lemma huggingface_request_shape (hf : Bool) (ch : Nat) (o : HfOutcome)
    (p : String) :
    (huggingface_request hf ch o p).success = true ∨
    (huggingface_request hf ch o p).error = "Invalid response format" ∨
    (∃ c : Int, (huggingface_request hf ch o p).error =
      "HuggingFace API error: " ++ toString c) := by
  cases hf with
  | false => exact Or.inl rfl
  | true =>
    cases o with
    | okGen g => exact Or.inl rfl
    | okInvalid => exact Or.inr (Or.inl rfl)
    | httpError code => exact Or.inr (Or.inr ⟨code, rfl⟩)
    | raised m => exact Or.inl rfl

/-- Every result of the provider dispatch is a success or carries one of the
five fixed provider error shapes. -/
lemma provider_response_shape (env : GenEnv) (model : ModelInfo) (p : String) :
    (provider_response env model p).success = true ∨
    (provider_response env model p).error = "OpenAI API key not configured" ∨
    (∃ c : Int, (provider_response env model p).error =
      "OpenAI API error: " ++ toString c) ∨
    (∃ m : String, (provider_response env model p).error =
      "OpenAI request failed: " ++ m) ∨
    (provider_response env model p).error = "Invalid response format" ∨
    (∃ c : Int, (provider_response env model p).error =
      "HuggingFace API error: " ++ toString c) := by
  unfold provider_response claude_request gemini_request
  split_ifs with h1 h2 h3
  · rcases openai_request_shape env.apiKeyConfigured env.openaiOutcome with
      h | h | h | h
    exacts [Or.inl h, Or.inr (Or.inl h), Or.inr (Or.inr (Or.inl h)),
      Or.inr (Or.inr (Or.inr (Or.inl h)))]
  · rcases openai_request_shape env.apiKeyConfigured env.openaiOutcome with
      h | h | h | h
    exacts [Or.inl h, Or.inr (Or.inl h), Or.inr (Or.inr (Or.inl h)),
      Or.inr (Or.inr (Or.inr (Or.inl h)))]
  · rcases openai_request_shape env.apiKeyConfigured env.openaiOutcome with
      h | h | h | h
    exacts [Or.inl h, Or.inr (Or.inl h), Or.inr (Or.inr (Or.inl h)),
      Or.inr (Or.inr (Or.inr (Or.inl h)))]
  · rcases huggingface_request_shape env.hfConfigured env.hfChoice
      env.hfOutcome p with h | h | h
    exacts [Or.inl h, Or.inr (Or.inr (Or.inr (Or.inr (Or.inl h)))),
      Or.inr (Or.inr (Or.inr (Or.inr (Or.inr h))))]

/-! ## Claims -/

/-- C10: for every user (including none), `get_available_models` returns
exactly the five configured models in catalogue order, with `"free"` always
marked available and every non-free model marked available exactly when the
user is present and currently premium. -/
theorem c10_available_models (user : Option UserRec) (now : Int) :
    (get_available_models user now).map (fun m => (m.key, m.name, m.available)) =
      (let p : Bool := match user with
                       | some u => is_premium now u
                       | none => false
       [("gpt4", "GPT-4 Turbo", p), ("gpt3.5", "GPT-3.5 Turbo", p),
        ("claude", "Claude 3 Sonnet", p), ("gemini", "Gemini Pro", p),
        ("free", "Ganesh AI Free", true)]) := by
  cases user with
  | none => rfl
  | some u =>
    cases h : is_premium now u <;>
      simp [get_available_models, modelsList, h, gpt4Model, gpt35Model,
        claudeModel, geminiModel, freeModel]

/-- C8: `User.add_earnings` credits the wallet and `total_earned` by exactly
the amount and creates one completed credit transaction for that amount; and
no user-mutating operation of the program decreases `total_earned` (the
model-cost deduction touches only the wallet and chat counter). -/
theorem c8_add_earnings_total_earned_monotone :
    (∀ (u : UserRec) (a : ℚ) (d : String),
        (add_earnings u a d).1.wallet = u.wallet + a ∧
        (add_earnings u a d).1.total_earned = u.total_earned + a ∧
        (add_earnings u a d).2.amount = a ∧
        (add_earnings u a d).2.transaction_type = "credit" ∧
        (add_earnings u a d).2.status = "completed" ∧
        (add_earnings u a d).2.user_id = u.id) ∧
    (∀ (op : UserOp) (u : UserRec), opValid op →
        u.total_earned ≤ (applyUserOp op u).total_earned) := by
  refine ⟨fun u a d => ⟨rfl, rfl, rfl, rfl, rfl, rfl⟩, fun op u hv => ?_⟩
  cases op with
  | aiDeduct key => simp [applyUserOp]
  | visitTrack now page =>
      simp [applyUserOp, add_earnings, VISIT_PAY_RATE] <;> norm_num
  | visitAdminShare page =>
      simp [applyUserOp, add_earnings, VISIT_PAY_RATE, ADMIN_SHARE] <;> norm_num
  | chatEarn key =>
      simp [applyUserOp, add_earnings, CHAT_PAY_RATE, USER_SHARE] <;> norm_num
  | chatAdminShare key =>
      simp [applyUserOp, add_earnings, CHAT_PAY_RATE, ADMIN_SHARE] <;> norm_num
  | referralBonusCredit nid =>
      simp [applyUserOp, add_earnings, REFERRAL_BONUS] <;> norm_num
  | welcomeFromReferral code =>
      simp [applyUserOp, add_earnings, REFERRAL_BONUS] <;> norm_num
  | adRevenue a =>
      obtain ⟨h1, _⟩ := hv
      simp only [applyUserOp, add_earnings]
      linarith
  | telegramWelcome =>
      simp [applyUserOp, add_earnings] <;> norm_num

/-- Witness for C8 at a concrete operation with its side condition
discharged. -/
theorem c8_witness :
    plainUserSample.total_earned ≤
      (applyUserOp (.adRevenue 100) plainUserSample).total_earned :=
  c8_add_earnings_total_earned_monotone.2 (.adRevenue 100) plainUserSample
    ⟨by norm_num, by norm_num⟩

/-- C2 counterexample: with budget `B = 5` the new input `"hi"` alone costs
1 ≤ 5, yet the message list built for the backend costs more than 5 — the
code performs no token budgeting, so the claimed bound fails. -/
theorem c2_counterexample :
    estimateHeuristic "hi" ≤ 5 ∧ 5 < messagesCost (openai_messages "hi") := by
  constructor <;> decide

/-- C2 amended: the context step builds exactly the fixed system preamble
followed by the new user message — the preamble is first and the new user
message is last (the surviving ordering guarantee, with no history in
between), and the total estimated cost is always preamble plus input, with
no dependence on any budget. -/
theorem c2_amended_assembly (prompt : String) :
    (openai_messages prompt).head? =
        some { role := "system", content := systemPreamble } ∧
    (openai_messages prompt).getLast? =
        some { role := "user", content := prompt } ∧
    messagesCost (openai_messages prompt) =
        estimateHeuristic systemPreamble + estimateHeuristic prompt := by
  refine ⟨rfl, rfl, ?_⟩
  simp [messagesCost, openai_messages]

/-- C4 counterexample: three requests of the same session were already
admitted at time 0; with the spec's threshold 3 a fourth request at time 1
(inside any trailing window) must be throttled, yet `api_chat` admits it —
the endpoint has no rate limiter. -/
theorem c4_counterexample :
    api_chat_guard [0, 0, 0] 1 (some "hi") (some plainUserSample) =
      ChatAdmission.processed := by decide

/-- C4 amended: `api_chat` performs no rate limiting: every well-formed
request (JSON body present, non-blank message, known user) is admitted to
generation regardless of how many earlier requests fall inside any window. -/
theorem c4_amended_no_throttle (priorRequests : List Int) (now : Int)
    (message : String) (u : UserRec) (h : isBlank message = false) :
    api_chat_guard priorRequests now (some message) (some u) =
      ChatAdmission.processed := by
  simp [api_chat_guard, h]

/-- Witness for C4: a concrete admitted request. -/
theorem c4_witness :
    api_chat_guard [5, 6, 7] 8 (some "hello") (some premiumUserSample) =
      ChatAdmission.processed :=
  c4_amended_no_throttle [5, 6, 7] 8 "hello" premiumUserSample (by decide)

/-- C5 (spec-modelled): if the classifier call raises or times out, the
moderation gate fails open — it returns `true` — and records a degraded-mode
audit event rather than staying silent. -/
theorem c5_moderation_fail_open (text : String) (outcome : ClassifierOutcome)
    (h : (∃ m, outcome = .raised m) ∨ outcome = .timedOut) :
    (moderation_allowed outcome text).1 = true ∧
      (moderation_allowed outcome text).2 ≠ [] := by
  cases outcome with
  | ok b =>
      rcases h with ⟨m, hm⟩ | hm <;> exact absurd hm (by simp)
  | raised m => exact ⟨rfl, by simp [moderation_allowed]⟩
  | timedOut => exact ⟨rfl, by simp [moderation_allowed]⟩

/-- Witness for C5 at a concrete timed-out classifier call. -/
theorem c5_witness :
    (moderation_allowed .timedOut "some text").1 = true ∧
      (moderation_allowed .timedOut "some text").2 ≠ [] :=
  c5_moderation_fail_open "some text" .timedOut (Or.inr rfl)

/-- C6 (spec-modelled): the token estimator is total, returns at least 1 for
non-empty input on both paths (given that an exact subword tokenizer counts
at least one token on non-empty input), and without an exact tokenizer it
returns `max 1 (length / 4)`. -/
theorem c6_estimator (f : String → Nat) (text : String)
    (hf : ∀ s : String, s ≠ "" → 1 ≤ f s) :
    (text ≠ "" → 1 ≤ estimate (some f) text) ∧
      1 ≤ estimate none text ∧
      estimate none text = max 1 (text.length / 4) := by
  refine ⟨fun h => hf text h, ?_, rfl⟩
  simp [estimate, estimateHeuristic]

/-- Witness for C6 with a concrete exact tokenizer and input. -/
theorem c6_witness :
    (("ab" : String) ≠ "" → 1 ≤ estimate (some fun s => max 1 s.length) "ab") ∧
      1 ≤ estimate none "ab" ∧
      estimate none "ab" = max 1 (("ab" : String).length / 4) :=
  c6_estimator (fun s => max 1 s.length) "ab" (fun s _ => le_max_left 1 s.length)

/-- C9: an unsuccessful `generate_response` call leaves the user's wallet,
chat counter and usage log untouched; and a successful call either changes
nothing or — exactly when a non-free model key is used by a present,
non-premium user — deducts the model cost and increments the chat counter. -/
theorem c9_no_charge_on_failure (env : GenEnv) (prompt modelKey : String)
    (user : Option UserRec) (now : Int) :
    ((generate_response env prompt modelKey user now).1.success = false →
      (generate_response env prompt modelKey user now).2.1 = user ∧
      (generate_response env prompt modelKey user now).2.2 = []) ∧
    ((generate_response env prompt modelKey user now).1.success = true →
      ((generate_response env prompt modelKey user now).2.1 = user ∧
        (generate_response env prompt modelKey user now).2.2 = []) ∨
      (∃ u, user = some u ∧ modelKey ≠ "free" ∧ is_premium now u = false ∧
        (generate_response env prompt modelKey user now).2.1 =
          some { u with wallet := u.wallet - (modelsGet modelKey).cost,
                        chats_count := u.chats_count + 1 })) := by
  cases user with
  | none =>
    simp only [generate_response]
    split_ifs <;> simp_all
  | some u =>
    simp only [generate_response]
    split_ifs with h1 h2 h3 h4 <;> simp_all <;>
      exact Or.inr ⟨u, rfl, by simpa using h3.1, by simpa using h3.2, rfl⟩

/-- Witness for C9 at a concrete failing call: a premium user, a configured
key and a timed-out backend request leave the user row and usage log
unchanged. -/
theorem c9_witness :
    (generate_response raisedEnvSample "hello" "gpt4"
        (some premiumUserSample) 0).2.1 = some premiumUserSample ∧
    (generate_response raisedEnvSample "hello" "gpt4"
        (some premiumUserSample) 0).2.2 = [] :=
  (c9_no_charge_on_failure raisedEnvSample "hello" "gpt4"
    (some premiumUserSample) 0).1 (by decide)

/-- C1 counterexample: a backend request that raises `ConnectTimeout` does
not terminate in the fixed neutral fallback — `generate_response` returns
the provider's error dict unchanged, and its error text embeds the raw
exception string. -/
theorem c1_counterexample :
    (generate_response raisedEnvSample "hello" "gpt4"
        (some premiumUserSample) 0).1.success = false ∧
    (generate_response raisedEnvSample "hello" "gpt4"
        (some premiumUserSample) 0).1.error =
      "OpenAI request failed: ConnectTimeout" ∧
    (generate_response raisedEnvSample "hello" "gpt4"
        (some premiumUserSample) 0).1 ≠ fallbackResult := by
  refine ⟨by decide, by decide, ?_⟩
  intro h
  have := congrArg GenResult.error h
  simp only at this
  exact absurd this (by decide)

/-- C1 amended: `generate_response` never raises — every execution path
returns a result dict that is a success, the fixed neutral fallback of its
own except clause, the insufficient-balance rejection, or one of the
providers' fixed error shapes; the only shape embedding a raw exception
string is the provider-level "OpenAI request failed: ..." dict, which is
returned to the caller as-is. -/
theorem c1_amended_never_raises (env : GenEnv) (prompt modelKey : String)
    (user : Option UserRec) (now : Int) :
    ((generate_response env prompt modelKey user now).1.success = true ∨
      (generate_response env prompt modelKey user now).1 = fallbackResult ∨
      (generate_response env prompt modelKey user now).1.upgrade_required = true ∨
      (generate_response env prompt modelKey user now).1.error =
        "OpenAI API key not configured" ∨
      (∃ c : Int, (generate_response env prompt modelKey user now).1.error =
        "OpenAI API error: " ++ toString c) ∨
      (∃ m : String, (generate_response env prompt modelKey user now).1.error =
        "OpenAI request failed: " ++ m) ∨
      (generate_response env prompt modelKey user now).1.error =
        "Invalid response format" ∨
      (∃ c : Int, (generate_response env prompt modelKey user now).1.error =
        "HuggingFace API error: " ++ toString c)) ∧
    fallbackResult.error =
      "AI service temporarily unavailable. Please try again." := by
  refine ⟨?_, rfl⟩
  have hshape := provider_response_shape env (modelsGet modelKey) prompt
  cases user with
  | none =>
    simp only [generate_response]
    split_ifs with h1 h2 <;> simp_all <;> tauto
  | some u =>
    simp only [generate_response]
    split_ifs with h1 h2 h3 h4 <;> simp_all <;> tauto

/-- C3 counterexample: an operation that fails exactly `max_retries = 2`
times and then succeeds must, per the claim, yield the success result; the
code makes a single attempt, so the call fails and never sees the recovery
at attempt index 2. -/
theorem c3_counterexample :
    twoFailStream 0 = .raised "timeout" ∧
    twoFailStream 1 = .raised "timeout" ∧
    twoFailStream 2 = .ok "recovered" ∧
    (generate_response_attempts raisedEnvSample twoFailStream "hello" "gpt4"
        (some premiumUserSample) 0).1.success = false ∧
    (generate_response_attempts raisedEnvSample twoFailStream "hello" "gpt4"
        (some premiumUserSample) 0).1.content ≠ "recovered" :=
  ⟨rfl, rfl, rfl, by decide, by decide⟩

/-- C3 amended: `generate_response` performs exactly one backend attempt
with no retry and no backoff: the result depends only on the outcome of
attempt 0, and when that single attempt raises (for any non-HuggingFace
provider, whose helper swallows exceptions into a canned success) the call
returns a non-success result instead of retrying — and never raises. -/
theorem c3_amended_single_attempt :
    (∀ (env : GenEnv) (o o' : Nat → ProviderOutcome)
        (prompt modelKey : String) (user : Option UserRec) (now : Int),
        o 0 = o' 0 →
        generate_response_attempts env o prompt modelKey user now =
          generate_response_attempts env o' prompt modelKey user now) ∧
    (∀ (env : GenEnv) (o : Nat → ProviderOutcome) (prompt modelKey : String)
        (user : Option UserRec) (now : Int) (m : String),
        o 0 = .raised m → (modelsGet modelKey).provider ≠ "huggingface" →
        (generate_response_attempts env o prompt modelKey user now).1.success
          = false) := by
  constructor
  · intro env o o' prompt modelKey user now h
    unfold generate_response_attempts
    rw [h]
  · intro env o prompt modelKey user now m h hp
    have hresp : (provider_response { env with openaiOutcome := .raised m }
        (modelsGet modelKey) prompt).success = false := by
      unfold provider_response claude_request gemini_request
      split_ifs with h1 h2 h3
      · cases env.apiKeyConfigured <;> rfl
      · cases env.apiKeyConfigured <;> rfl
      · cases env.apiKeyConfigured <;> rfl
      · rcases modelsGet_mem modelKey with hm | hm | hm | hm | hm <;>
          rw [hm] at h1 h2 h3 hp <;>
          simp [gpt4Model, gpt35Model, claudeModel, geminiModel, freeModel]
            at h1 h2 h3 hp
    unfold generate_response_attempts
    rw [h]
    cases user with
    | none =>
      simp only [generate_response]
      split_ifs <;> simp_all
    | some u =>
      simp only [generate_response]
      split_ifs <;> simp_all

/-- Witness for C3: the result of a concrete call coincides with the call
that only keeps attempt 0, and the single raised attempt yields a
non-success result. -/
theorem c3_witness :
    generate_response_attempts raisedEnvSample twoFailStream "x" "gpt4"
        none 0 =
      generate_response_attempts raisedEnvSample (fun _ => .raised "timeout")
        "x" "gpt4" none 0 ∧
    (generate_response_attempts raisedEnvSample twoFailStream "x" "gpt4"
        none 0).1.success = false :=
  ⟨c3_amended_single_attempt.1 raisedEnvSample twoFailStream
      (fun _ => .raised "timeout") "x" "gpt4" none 0 rfl,
   c3_amended_single_attempt.2 raisedEnvSample twoFailStream "x" "gpt4"
      none 0 "timeout" rfl (by decide)⟩

/-- C7 (spec-modelled): the similarity score is totally defined — a
zero-norm operand scores 0 and otherwise the score is
`dot(a,b) / (||a|| * ||b||)`; the ranked list is a permutation of the
scanned window sorted by descending score with ties broken most-recent-first,
and the query returns at most `k` snippets, each of which is the plain
source text of an indexed record of the matching model version. -/
theorem c7_retrieval_scoring :
    (∀ a b : List ℝ, normR a = 0 ∨ normR b = 0 → cosineScore a b = 0) ∧
    (∀ a b : List ℝ, normR a ≠ 0 → normR b ≠ 0 →
      cosineScore a b = dotR a b / (normR a * normR b)) ∧
    (∀ (records : List EmbeddingRecord) (q : List ℝ) (ver : String),
      List.Sorted (retrievalOrder q) (rankedRecords records q ver)) ∧
    (∀ (records : List EmbeddingRecord) (q : List ℝ) (ver : String),
      (rankedRecords records q ver).Perm
        ((records.take windowM).filter (fun r => r.model_version == ver))) ∧
    (∀ (records : List EmbeddingRecord) (q : List ℝ) (ver : String) (k : Nat),
      (queryIndex records q ver k).length ≤ k) ∧
    (∀ (records : List EmbeddingRecord) (q : List ℝ) (ver : String) (k : Nat)
        (s : String), s ∈ queryIndex records q ver k →
      ∃ r, r ∈ records ∧ r.source_text = s ∧ r.model_version = ver) := by
  have htot : ∀ q : List ℝ, ∀ r s : EmbeddingRecord,
      retrievalOrder q r s ∨ retrievalOrder q s r := by
    intro q r s
    unfold retrievalOrder
    rcases lt_trichotomy (cosineScore q r.vector) (cosineScore q s.vector) with
      h | h | h
    · exact Or.inr (Or.inl h)
    · rcases le_total r.created_at s.created_at with hle | hle
      · exact Or.inr (Or.inr ⟨h.symm, hle⟩)
      · exact Or.inl (Or.inr ⟨h, hle⟩)
    · exact Or.inl (Or.inl h)
  have htrans : ∀ q : List ℝ, ∀ a b c : EmbeddingRecord,
      retrievalOrder q a b → retrievalOrder q b c → retrievalOrder q a c := by
    intro q a b c hab hbc
    unfold retrievalOrder at hab hbc ⊢
    rcases hab with h1 | ⟨he1, ht1⟩ <;> rcases hbc with h2 | ⟨he2, ht2⟩
    · exact Or.inl (h2.trans h1)
    · exact Or.inl (he2 ▸ h1)
    · exact Or.inl (he1.symm ▸ h2)
    · exact Or.inr ⟨he1.trans he2, ht2.trans ht1⟩
  refine ⟨?_, ?_, ?_, ?_, ?_, ?_⟩
  · intro a b h
    rw [cosineScore, if_pos h]
  · intro a b ha hb
    rw [cosineScore, if_neg (by tauto)]
  · intro records q ver
    letI := retrievalOrderDec q
    haveI : IsTotal EmbeddingRecord (retrievalOrder q) := ⟨htot q⟩
    haveI : IsTrans EmbeddingRecord (retrievalOrder q) :=
      ⟨fun a b c => htrans q a b c⟩
    exact List.sorted_insertionSort _ _
  · intro records q ver
    letI := retrievalOrderDec q
    exact List.perm_insertionSort _ _
  · intro records q ver k
    simp only [queryIndex, List.length_map, List.length_take]
    exact min_le_left _ _
  · intro records q ver k s hs
    simp only [queryIndex, List.mem_map] at hs
    obtain ⟨r, hr, rfl⟩ := hs
    have hr2 : r ∈ rankedRecords records q ver := List.mem_of_mem_take hr
    letI := retrievalOrderDec q
    have hr3 : r ∈ (records.take windowM).filter
        (fun r => r.model_version == ver) :=
      (List.perm_insertionSort _ _).mem_iff.mp hr2
    rw [List.mem_filter] at hr3
    exact ⟨r, List.mem_of_mem_take hr3.1, rfl, by simpa using hr3.2⟩

/-- Witness for C7 at concrete vectors: the zero vector has norm 0 and the
guard scores the pair 0. -/
theorem c7_witness : cosineScore [(0 : ℝ)] [(1 : ℝ)] = 0 :=
  c7_retrieval_scoring.1 [(0 : ℝ)] [(1 : ℝ)]
    (Or.inl (by simp [normR, dotR]))

end GaneshBot
